import Mathlib

/-!
Verification of the conflict-intelligence scoring core.

This file gives a shallow embedding of the scoring engine found in
`backend/services/ml_service.py`, `backend/services/conflict_analyzer.py`
and `backend/services/simulation_service.py`, and proves or refutes the
frozen specification claims about it.

Modelling conventions:
* Python floats are modelled as exact rationals (`ℚ`); the one place the
  code takes a square root (`np.std`) is modelled over `ℝ` with `Real.sqrt`.
* The external NLP oracle (transformers pipelines and spaCy) is a parameter:
  an `Oracle` record of functions supplied by the caller.
* The regular expressions used by the code are simple word-boundary
  alternations of literals; they are modelled by an explicit word-boundary
  substring matcher (`\b` = transition between a word char and a non-word
  char or the string edge; `$` = end of string, trailing-newline handling
  is irrelevant for the inputs considered; `.` in `.*` is modelled as any
  character, which agrees with `re` on newline-free inputs).
* `datetime.utcnow()` timestamps are omitted from the turn record: no claim
  mentions them and they are the only non-deterministic field.
-/

namespace CIP

/-! ## Lowercasing and word-boundary pattern matching

`str.lower()` on the ASCII texts handled here is `Char.toLower` applied
pointwise.  A Python regex `\blit\b` matches iff the literal occurs at some
position with no word character (`[A-Za-z0-9_]`) immediately before or
after the occurrence. -/

def toLowerStr (s : String) : String :=
  ⟨s.data.map Char.toLower⟩

def isWordChar (c : Char) : Bool :=
  c.isAlphanum || c == '_'

/-- The literal `pat` occurs in `cs` starting at index `i`. -/
def litAt (cs pat : List Char) (i : Nat) : Bool :=
  (cs.drop i).take pat.length == pat

/-- Word boundary holds on both sides of an occurrence of length `n` at `i`. -/
def boundaryAt (cs : List Char) (i n : Nat) : Bool :=
  (i == 0 || !(isWordChar ((cs.drop (i - 1)).headD ' '))) &&
  (i + n == cs.length || !(isWordChar ((cs.drop (i + n)).headD ' ')))

/-- `re.search(r"\bpat\b", s)` for a literal `pat` (whose first and last
characters are word characters, as for every pattern in the source). -/
def containsWord (s pat : String) : Bool :=
  (List.range (s.data.length + 1)).any fun i =>
    litAt s.data pat.data i && boundaryAt s.data i pat.data.length

/-- `re.search(r"\bpat\b\.?$", s)`: the literal with a left word boundary,
optionally followed by a single dot, then the end of the string. -/
def endAnchoredWord (s pat : String) : Bool :=
  (List.range (s.data.length + 1)).any fun i =>
    litAt s.data pat.data i &&
    (i == 0 || !(isWordChar ((s.data.drop (i - 1)).headD ' '))) &&
    (s.data.drop (i + pat.data.length) == [] ||
      s.data.drop (i + pat.data.length) == ['.'])

/-- Plain substring test (Python `sub in s`). -/
def containsSub (s sub : String) : Bool :=
  (List.range (s.data.length + 1)).any fun i =>
    (s.data.drop i).take sub.data.length == sub.data

/-- `re.search(r"\bno worries\b.*\bbut\b", s)`: "no worries" with word
boundaries, then "but" with word boundaries starting at or after the end of
that occurrence. -/
def noWorriesBut (s : String) : Bool :=
  (List.range (s.data.length + 1)).any fun i =>
    litAt s.data "no worries".data i && boundaryAt s.data i 10 &&
    (List.range (s.data.length + 1)).any fun j =>
      i + 10 ≤ j && litAt s.data "but".data j && boundaryAt s.data j 3

/-! ## Bias tags (`MLService.detect_cognitive_biases`) -/

structure BiasTag where
  type : String
  description : String
  severity : String
deriving DecidableEq

def overgeneralizationTag : BiasTag :=
  ⟨"overgeneralization", "Using absolute terms (always, never, everyone)", "medium"⟩

def mindReadingTag : BiasTag :=
  ⟨"mind_reading", "Assuming to know other's thoughts or intentions", "medium"⟩

def catastrophizingTag : BiasTag :=
  ⟨"catastrophizing", "Exaggerating negative outcomes", "high"⟩

def personalizationTag : BiasTag :=
  ⟨"personalization", "Attributing responsibility to others unfairly", "high"⟩

def gaslightingTag : BiasTag :=
  ⟨"gaslighting", "Attempting to make the other doubt their perception", "critical"⟩

def overgeneralizationMatch (tl : String) : Bool :=
  containsWord tl "always" || containsWord tl "never" || containsWord tl "everyone" ||
  containsWord tl "no one" || containsWord tl "every time" || containsWord tl "all the time"

def mindReadingMatch (tl : String) : Bool :=
  containsWord tl "you think" || containsWord tl "you believe" ||
  containsWord tl "you want to" || containsWord tl "you're trying to" ||
  containsWord tl "you just want"

def catastrophizingMatch (tl : String) : Bool :=
  containsWord tl "ruined" || containsWord tl "destroyed" || containsWord tl "terrible" ||
  containsWord tl "awful" || containsWord tl "disaster" || containsWord tl "catastrophe"

def personalizationMatch (tl : String) : Bool :=
  containsWord tl "you make me" || containsWord tl "you caused" || containsWord tl "your fault"

def gaslightingMatch (tl : String) : Bool :=
  containsWord tl "you're overreacting" || containsWord tl "you're too sensitive" ||
  containsWord tl "that never happened" || containsWord tl "you're imagining things" ||
  containsWord tl "you're crazy"

/-- `MLService.detect_cognitive_biases`: five categories checked in a fixed
order on the lowercased text, each appending at most one tag. -/
def detectCognitiveBiases (text : String) : List BiasTag :=
  let tl := toLowerStr text
  (if overgeneralizationMatch tl then [overgeneralizationTag] else []) ++
  (if mindReadingMatch tl then [mindReadingTag] else []) ++
  (if catastrophizingMatch tl then [catastrophizingTag] else []) ++
  (if personalizationMatch tl then [personalizationTag] else []) ++
  (if gaslightingMatch tl then [gaslightingTag] else [])

/-! ## Emotion adapter (`MLService.analyze_emotions`)

The transformers pipeline can return several shapes; the adapter normalizes
them into a label→score association list.  `RawEmotions.unknown` stands for
any output shape from which the normalization loop extracts no entries
(including entries whose scores fail `float(...)`, which the code skips). -/

inductive RawEmotions where
  | records (entries : List (String × ℚ))
  | single (label : String) (score : ℚ)
  | mapping (pairs : List (String × ℚ))
  | unknown
deriving DecidableEq

/-- The label→score dictionary the normalization branches build; `[]` both
for falsy raw output (`if not emotions`) and for shapes yielding no
entries. -/
def normalizeRaw : RawEmotions → List (String × ℚ)
  | .records entries => entries
  | .single label score => [(label, score)]
  | .mapping pairs => pairs
  | .unknown => []

structure EmotionResult where
  emotions : List (String × ℚ)
  aggression_score : ℚ
  dominant_emotion : String
deriving DecidableEq

def defaultEmotionResult : EmotionResult :=
  ⟨[], 0, "neutral"⟩

/-- `dict.get(k, d)` on an association list. -/
def lookupD (m : List (String × ℚ)) (k : String) (d : ℚ) : ℚ :=
  match m.find? (fun p => p.1 == k) with
  | some p => p.2
  | none => d

/-- Python `max(iterable, key=...)`: first element with the maximal score. -/
def argmaxLabel : List (String × ℚ) → String
  | [] => "neutral"
  | p :: ps => (ps.foldl (fun best q => if best.2 < q.2 then q else best) p).1

/-- `MLService.analyze_emotions` applied to the raw pipeline output: an
empty normalized dictionary gives the neutral fallback, otherwise the
aggression score is the "anger" (or "Anger") entry and the dominant emotion
is the argmax. -/
def analyzeEmotions (raw : RawEmotions) : EmotionResult :=
  let d := normalizeRaw raw
  if d = [] then defaultEmotionResult
  else
    { emotions := d
      aggression_score := lookupD d "anger" (lookupD d "Anger" 0)
      dominant_emotion := argmaxLabel d }

/-! ## Oracle and sentiment (`MLService.analyze_sentiment`) -/

structure LingFeatures where
  you_statements : Nat
  i_statements : Nat
  entities : List (String × String)
  question_count : Nat
  sentence_count : Nat
  word_count : Nat
deriving DecidableEq

structure SentimentResult where
  label : String
  score : ℚ
  polarity : ℚ
deriving DecidableEq

/-- The external NLP oracle: the sentiment pipeline's first record, the raw
emotion pipeline output, and the spaCy feature extraction.  All of these are
out-of-scope pretrained models, supplied as functions. -/
structure Oracle where
  sentimentRaw : String → String × ℚ
  rawEmotions : String → RawEmotions
  features : String → LingFeatures

/-- `MLService.analyze_sentiment`: polarity is `+1` iff the label is
exactly "POSITIVE", else `-1`. -/
def analyzeSentiment (o : Oracle) (text : String) : SentimentResult :=
  let r := o.sentimentRaw text
  ⟨r.1, r.2, if r.1 = "POSITIVE" then 1 else -1⟩

/-! ## Passive aggression (`MLService.detect_passive_aggression`) -/

/-- Sum of the weights of the rule-based patterns matching the lowercased
text, in the order of the source table (weights written as fractions:
`3/10 = 0.3` etc.). -/
def patternScore (tl : String) : ℚ :=
  (if endAnchoredWord tl "sure" then 3/10 else 0) +
  (if containsWord tl "whatever" then 4/10 else 0) +
  (if containsWord tl "do what you want" then 5/10 else 0) +
  (if containsWord tl "if you say so" then 4/10 else 0) +
  (if endAnchoredWord tl "fine" then 3/10 else 0) +
  (if containsWord tl "i guess" then 2/10 else 0) +
  (if noWorriesBut tl then 4/10 else 0) +
  (if containsWord tl "sorry you feel that way" then 5/10 else 0) +
  (if containsWord tl "must be nice" then 4/10 else 0) +
  (if containsWord tl "good for you" then 3/10 else 0)

/-- `MLService.detect_passive_aggression`: rule-based pattern weights, plus
`0.1` for an ellipsis or a double exclamation mark in the original text,
plus `0.2` when the emotion oracle reports low anger together with high
disgust; the total is capped at `1.0`. -/
def detectPassiveAggression (o : Oracle) (text : String) : ℚ :=
  let score := patternScore (toLowerStr text)
  let score := score + (if containsSub text "..." || containsSub text "!!" then 1/10 else 0)
  let em := analyzeEmotions (o.rawEmotions text)
  let score := score +
    (if em.aggression_score < 3/10 ∧ lookupD em.emotions "disgust" 0 > 3/10 then 2/10 else 0)
  min score 1

/-! ## Turn conflict score (`ConflictAnalyzer._calculate_turn_conflict_score`) -/

/-- The fixed severity→weight map, with `0.5` for an unknown severity key
(`bias_severity_map.get(..., 0.5)`). -/
def severityWeight (s : String) : ℚ :=
  if s = "low" then 1/5
  else if s = "medium" then 1/2
  else if s = "high" then 4/5
  else if s = "critical" then 1
  else 1/2

/-- `np.mean` of the tag severities, `0.0` for no tags. -/
def biasSeverityTerm (biases : List BiasTag) : ℚ :=
  if biases = [] then 0
  else (biases.map (fun b => severityWeight b.severity)).sum / biases.length

/-- `ConflictAnalyzer._calculate_turn_conflict_score`: the weighted sum of
aggression (`0.35`), passive aggression (`0.25`), sentiment negativity
(`0.20`, with negativity `(1 - polarity)/2`) and mean bias severity
(`0.20`), capped at `1.0`. -/
def calculateTurnConflictScore (aggression passiveAggression sentimentPolarity : ℚ)
    (biases : List BiasTag) : ℚ :=
  let sentimentNegativity := (1 - sentimentPolarity) / 2
  min ((35/100) * aggression + (25/100) * passiveAggression +
    (20/100) * sentimentNegativity + (20/100) * biasSeverityTerm biases) 1

/-! ## Scored dialogue turns (`ConflictAnalyzer.analyze_turn`)

The `timestamp` field (a wall-clock reading) is omitted; no claim concerns
it and every other field is a pure function of the text and the oracle. -/

structure Turn where
  speaker : String
  text : String
  sentiment : SentimentResult
  emotions : EmotionResult
  aggression_score : ℚ
  passive_aggression_score : ℚ
  conflict_score : ℚ
  bias_tags : List BiasTag
  linguistic_features : LingFeatures
deriving DecidableEq

/-- `ConflictAnalyzer.analyze_turn`. -/
def analyzeTurn (o : Oracle) (text speaker : String) : Turn :=
  let sentiment := analyzeSentiment o text
  let emotions := analyzeEmotions (o.rawEmotions text)
  let passiveAgg := detectPassiveAggression o text
  let biases := detectCognitiveBiases text
  let features := o.features text
  { speaker := speaker
    text := text
    sentiment := sentiment
    emotions := emotions
    aggression_score := emotions.aggression_score
    passive_aggression_score := passiveAgg
    conflict_score :=
      calculateTurnConflictScore emotions.aggression_score passiveAgg sentiment.polarity biases
    bias_tags := biases
    linguistic_features := features }

/-! ## Conversation-level statistics (`ConflictAnalyzer`) -/

/-- `np.mean` over rationals (`0` on the empty list, a case the code never
reaches on the guarded paths). -/
def qmean (xs : List ℚ) : ℚ :=
  xs.sum / xs.length

/-- The degree-1 least-squares coefficient `np.polyfit(x, ys, 1)[0]` with
`x = 0, 1, ..., n-1`: the ordinary-least-squares slope
`Σ (xᵢ - x̄)(yᵢ - ȳ) / Σ (xᵢ - x̄)²`. -/
def slopeOLS (ys : List ℚ) : ℚ :=
  let xbar : ℚ := ((ys.length : ℚ) - 1) / 2
  let ybar := qmean ys
  ((ys.enum.map fun p => ((p.1 : ℚ) - xbar) * (p.2 - ybar)).sum) /
    ((ys.enum.map fun p => ((p.1 : ℚ) - xbar) ^ 2).sum)

/-- The square of `np.std`: the population variance, mean squared deviation
with divisor `n`. -/
def popVariance (ys : List ℚ) : ℚ :=
  qmean (ys.map fun y => (y - qmean ys) ^ 2)

/-- The square of the Bessel-corrected sample standard deviation, divisor
`n - 1`; used only to state the claim's reading of "sample standard
deviation". -/
def sampleVariance (ys : List ℚ) : ℚ :=
  (ys.map fun y => (y - qmean ys) ^ 2).sum / ((ys.length : ℚ) - 1)

/-- `ConflictAnalyzer._predict_escalation`: below two scores return the
single score (or 0); otherwise `0.4·recent_avg + 0.4·max(0, 10·slope) +
0.2·volatility` capped at `1.0`, where `volatility` is `np.std` of all
scores when there are more than two and `0` otherwise. -/
noncomputable def predictEscalation (scores : List ℚ) : ℝ :=
  if scores.length < 2 then ((scores.headD 0 : ℚ) : ℝ)
  else
    let slope := slopeOLS scores
    let recentAvg := qmean (scores.drop (scores.length - 3))
    let volatility : ℝ :=
      if 2 < scores.length then Real.sqrt ((popVariance scores : ℚ) : ℝ) else 0
    min ((4/10) * (recentAvg : ℝ) + (4/10) * max 0 ((slope : ℝ) * 10) +
      (2/10) * volatility) 1

/-- `ConflictAnalyzer._calculate_trend`. -/
def calculateTrend (scores : List ℚ) : String :=
  if scores.length < 2 then "stable"
  else if slopeOLS scores > 5/100 then "escalating"
  else if slopeOLS scores < -(5/100) then "de-escalating"
  else "stable"

/-! ## NVC mapping (`ConflictAnalyzer._analyze_nvc`) -/

structure Nvc where
  observation : String
  has_evaluation : Bool
  emotion : String
  likely_need : String
  nvc_score : ℚ
deriving DecidableEq

def emotionToNeed (emotion : String) : String :=
  if emotion = "anger" then "respect, fairness, autonomy"
  else if emotion = "fear" then "safety, security, predictability"
  else if emotion = "sadness" then "connection, understanding, support"
  else if emotion = "joy" then "celebration, appreciation, contribution"
  else if emotion = "disgust" then "integrity, authenticity, order"
  else if emotion = "surprise" then "clarity, information, understanding"
  else "understanding, connection"

/-- `ConflictAnalyzer._analyze_nvc`: evaluation words are plain substring
tests on the lowercased text. -/
def analyzeNvc (o : Oracle) (text : String) : Nvc :=
  let em := analyzeEmotions (o.rawEmotions text)
  let hasEvaluation :=
    containsSub (toLowerStr text) "always" || containsSub (toLowerStr text) "never" ||
    containsSub (toLowerStr text) "should" || containsSub (toLowerStr text) "must"
  { observation := text
    has_evaluation := hasEvaluation
    emotion := em.dominant_emotion
    likely_need := emotionToNeed em.dominant_emotion
    nvc_score := if hasEvaluation then 3/10 else 7/10 }

/-! ## Recommendations (`ConflictAnalyzer._generate_recommendations`) -/

structure Recommendation where
  priority : String
  category : String
  action : String
  description : String
deriving DecidableEq

def recTakeABreak : Recommendation :=
  ⟨"high", "de-escalation", "Take a break",
    "Conflict intensity is high. Consider pausing the conversation to cool down."⟩

def recChangeApproach : Recommendation :=
  ⟨"high", "intervention", "Change communication approach",
    "Conversation is escalating. Try using 'I' statements and focus on specific behaviors."⟩

def recAvoidAbsolutes : Recommendation :=
  ⟨"medium", "cognitive", "Avoid absolute terms",
    "Replace 'always' and 'never' with specific examples."⟩

def recAskInstead : Recommendation :=
  ⟨"medium", "cognitive", "Ask instead of assume",
    "Ask about intentions rather than assuming them."⟩

def recSetBoundaries : Recommendation :=
  ⟨"critical", "safety", "Set boundaries",
    "Gaslighting detected. Consider documenting the conversation and setting clear boundaries."⟩

def recKeepItUp : Recommendation :=
  ⟨"low", "positive", "Continue constructive dialogue",
    "Communication style is constructive. Keep it up!"⟩

/-- `ConflictAnalyzer._generate_recommendations`: six independent rules, in
source order. -/
noncomputable def generateRecommendations (conflictScore : ℚ) (escalationProb : ℝ)
    (biases : List BiasTag) : List Recommendation :=
  (if conflictScore > 7/10 then [recTakeABreak] else []) ++
  (if escalationProb > 6/10 then [recChangeApproach] else []) ++
  (if biases.any (fun b => b.type == "overgeneralization") then [recAvoidAbsolutes] else []) ++
  (if biases.any (fun b => b.type == "mind_reading") then [recAskInstead] else []) ++
  (if biases.any (fun b => b.type == "gaslighting") then [recSetBoundaries] else []) ++
  (if conflictScore < 3/10 then [recKeepItUp] else [])

/-! ## Conversation analysis (`ConflictAnalyzer.analyze_conversation`) -/

structure Metrics where
  avg_aggression : ℚ
  max_conflict : ℚ
  total_biases : Nat

structure Analysis where
  overall_conflict_score : ℚ
  escalation_probability : ℝ
  passive_aggression_index : ℚ
  cognitive_biases : List BiasTag
  nvc_analysis : Option Nvc
  recommendations : List Recommendation
  trend : String
  metrics : Option Metrics

/-- `ConflictAnalyzer._empty_analysis`: the defined neutral result (`{}`
dictionaries become `none`). -/
noncomputable def emptyAnalysis : Analysis :=
  { overall_conflict_score := 0
    escalation_probability := 0
    passive_aggression_index := 0
    cognitive_biases := []
    nvc_analysis := none
    recommendations := []
    trend := "stable"
    metrics := none }

/-- `ConflictAnalyzer.analyze_conversation`. -/
noncomputable def analyzeConversation (o : Oracle) (turns : List Turn) : Analysis :=
  match turns with
  | [] => emptyAnalysis
  | t :: ts =>
    let conflictScores := (t :: ts).map (fun u => u.conflict_score)
    let aggressionScores := (t :: ts).map (fun u => u.aggression_score)
    let passiveAggScores := (t :: ts).map (fun u => u.passive_aggression_score)
    let overallConflict := qmean conflictScores
    let passiveAggIndex := qmean passiveAggScores
    let escalationProb := predictEscalation conflictScores
    let allBiases := ((t :: ts).map (fun u => u.bias_tags)).flatten
    let nvc := analyzeNvc o ((t :: ts).getLast (by simp)).text
    { overall_conflict_score := overallConflict
      escalation_probability := escalationProb
      passive_aggression_index := passiveAggIndex
      cognitive_biases := allBiases
      nvc_analysis := some nvc
      recommendations := generateRecommendations overallConflict escalationProb allBiases
      trend := calculateTrend conflictScores
      metrics := some
        { avg_aggression := qmean aggressionScores
          max_conflict := (ts.map (fun u => u.conflict_score)).foldl max t.conflict_score
          total_biases := allBiases.length } }

/-! ## Randomness (`random.choice` / `random.random` in `SimulationService`)

The source draws from the process-wide `random` module; the draws are
modelled by an explicit linear-congruential generator state threaded through
the calls, so that a fixed seed determines every selection. -/

structure Rng where
  state : Nat
deriving DecidableEq

def rngNext (r : Rng) : Nat × Rng :=
  let s := (6364136223846793005 * r.state + 1442695040888963407) % (2 ^ 64)
  (s, ⟨s⟩)

/-- `random.choice(xs)` (the source only calls it on non-empty lists). -/
def rngChoice (r : Rng) (xs : List String) : String × Rng :=
  let n := rngNext r
  (xs.getD (n.1 % xs.length) "", n.2)

/-- `random.random() > 0.5` as a fair draw from the generator. -/
def rngCoin (r : Rng) : Bool × Rng :=
  let n := rngNext r
  (n.1 % 2 == 1, n.2)

/-! ## Opponent model (`SimulationService.build_opponent_model`) -/

structure OpponentModel where
  linguistic_style : Option LingFeatures
  sentiment_baseline : ℚ
  aggression_baseline : ℚ
  passive_aggression_baseline : ℚ
  trigger_words : List String
  response_patterns : List (String × String)
  communication_style : String
deriving DecidableEq

/-- `SimulationService._default_opponent_model`. -/
def defaultOpponentModel : OpponentModel :=
  { linguistic_style := none
    sentiment_baseline := 0
    aggression_baseline := 3/10
    passive_aggression_baseline := 2/10
    trigger_words := []
    response_patterns := []
    communication_style := "neutral" }

/-- `SimulationService._extract_trigger_words`: texts of turns with
conflict score above `0.6` and fewer than 50 characters, first five. -/
def extractTriggerWords (turns : List Turn) : List String :=
  ((turns.filter fun t => t.conflict_score > 6/10 && t.text.length < 50).map
    (fun t => t.text)).take 5

/-- The body of the loop in `SimulationService._extract_response_patterns`:
for every adjacent pair whose second turn has speaker exactly "opponent",
the pair of both texts truncated to 50 characters. -/
def responsePatternsAux : List Turn → List (String × String)
  | [] => []
  | [_] => []
  | prev :: cur :: rest =>
    (if cur.speaker = "opponent" then [(prev.text.take 50, cur.text.take 50)] else []) ++
    responsePatternsAux (cur :: rest)

/-- `SimulationService._extract_response_patterns`: the loop result,
truncated to the first five pairs. -/
def extractResponsePatterns (turns : List Turn) : List (String × String) :=
  (responsePatternsAux turns).take 5

/-- `SimulationService._determine_communication_style`: first-match-wins. -/
def determineCommunicationStyle (aggression passiveAggression : ℚ)
    (features : LingFeatures) : String :=
  if aggression > 6/10 then "aggressive"
  else if passiveAggression > 5/10 then "passive_aggressive"
  else if features.you_statements > features.i_statements * 2 then "aggressive"
  else if features.question_count < 1 ∧ aggression < 3/10 then "avoidant"
  else if aggression < 3/10 ∧ passiveAggression < 3/10 then "constructive"
  else "neutral"

/-- `SimulationService.build_opponent_model`. -/
def buildOpponentModel (o : Oracle) (opponentTurns : List Turn) : OpponentModel :=
  match opponentTurns with
  | [] => defaultOpponentModel
  | t :: ts =>
    let turns := t :: ts
    let allText := String.intercalate " " (turns.map fun u => u.text)
    let features := o.features allText
    let sentiments := turns.map fun u => analyzeSentiment o u.text
    let avgSentiment :=
      (sentiments.map fun s => s.score * (if s.label = "POSITIVE" then 1 else -1)).sum /
        (sentiments.length : ℚ)
    let avgAggression := qmean (turns.map fun u => u.aggression_score)
    let avgPassiveAgg := qmean (turns.map fun u => u.passive_aggression_score)
    { linguistic_style := some features
      sentiment_baseline := avgSentiment
      aggression_baseline := avgAggression
      passive_aggression_baseline := avgPassiveAgg
      trigger_words := extractTriggerWords turns
      response_patterns := extractResponsePatterns turns
      communication_style := determineCommunicationStyle avgAggression avgPassiveAgg features }

/-! ## Response generation (`SimulationService._generate_response_text`) -/

/-- `SimulationService._get_response_templates`: the fixed table, keyed by
style (unknown styles fall back to "neutral") and mood; the aggression
argument is accepted and ignored, as in the source. -/
def getResponseTemplates (style : String) (aggression : ℚ) (isTriggering : Bool) :
    List String :=
  let _ := aggression
  if style = "aggressive" then
    if isTriggering then
      ["Are you serious right now?", "You always do this!",
        "I'm done with this conversation.", "This is ridiculous."]
    else
      ["That's not what I meant at all.", "You're twisting my words.", "Here we go again."]
  else if style = "passive_aggressive" then
    if isTriggering then
      ["Well, excuse me for existing.", "Sorry for caring.", "My bad for trying.",
        "Fine. You win."]
    else
      ["Sure, whatever you say.", "If that's how you feel...", "I guess that's fine.",
        "Do what you want."]
  else if style = "avoidant" then
    if isTriggering then
      ["I can't deal with this right now.", "I need space.", "This is too much."]
    else
      ["Can we talk about this later?", "I don't want to get into this now.",
        "Let's just move on."]
  else if style = "constructive" then
    if isTriggering then
      ["I feel hurt by that.", "This is important to me.",
        "I need you to understand my perspective."]
    else
      ["I hear what you're saying.", "Let me think about that.",
        "Can we find a middle ground?"]
  else
    if isTriggering then
      ["I disagree with that.", "That's not fair.", "I don't think that's right."]
    else
      ["Okay.", "I understand.", "Let's figure this out."]

/-- `SimulationService._generate_response_text`: one template draw, then —
only when the profile has trigger words — a coin flip and possibly a drawn
trigger word appended after a space. -/
def generateResponseText (rng : Rng) (draftTurn : Turn) (m : OpponentModel) :
    String × Rng :=
  let isTriggering := draftTurn.conflict_score > 5/10
  let templates := getResponseTemplates m.communication_style m.aggression_baseline isTriggering
  let c := rngChoice rng templates
  if m.trigger_words.isEmpty then c
  else
    let flip := rngCoin c.2
    if flip.1 then
      let w := rngChoice flip.2 m.trigger_words
      (c.1 ++ " " ++ w.1, w.2)
    else (c.1, flip.2)

/-! ## Response simulation (`SimulationService.simulate_response`) -/

structure SimulationResult where
  simulated_response : String
  response_analysis : Turn
  predicted_escalation : ℝ
  conflict_score_change : ℚ
  recommendation : String

/-- `SimulationService._generate_simulation_recommendation`. -/
noncomputable def simulationRecommendation (escalation : ℝ) : String :=
  if escalation > 7/10 then
    "⚠️ High escalation risk. Consider rephrasing to be less confrontational."
  else if escalation > 5/10 then
    "⚡ Moderate escalation likely. Adding 'I feel' statements might help."
  else
    "✅ This approach seems balanced."

/-- `SimulationService.simulate_response`: score the draft, generate the
reply, score it, analyze the history extended with both turns, and report
the escalation, the conflict-score delta against a fresh analysis of the
original history (0 for an empty history), and a recommendation. -/
noncomputable def simulateResponse (rng : Rng) (o : Oracle) (userDraft : String)
    (opponentModel : OpponentModel) (conversationHistory : List Turn) : SimulationResult :=
  let draftTurn := analyzeTurn o userDraft "user"
  let responseText := (generateResponseText rng draftTurn opponentModel).1
  let simulatedTurn := analyzeTurn o responseText "opponent"
  let updatedHistory := conversationHistory ++ [draftTurn, simulatedTurn]
  let updatedAnalysis := analyzeConversation o updatedHistory
  { simulated_response := responseText
    response_analysis := simulatedTurn
    predicted_escalation := updatedAnalysis.escalation_probability
    conflict_score_change := updatedAnalysis.overall_conflict_score -
      (if conversationHistory.isEmpty then 0
        else (analyzeConversation o conversationHistory).overall_conflict_score)
    recommendation := simulationRecommendation updatedAnalysis.escalation_probability }

/-! ## Spec-side definitions and concrete test fixtures -/

/-- The five tags in the fixed source order; `detect_cognitive_biases` can
only ever return a subsequence of this list. -/
def canonicalBiasTags : List BiasTag :=
  [overgeneralizationTag, mindReadingTag, catastrophizingTag, personalizationTag,
    gaslightingTag]

/-- The escalation formula exactly as the claim states it: an OLS slope,
the mean of the last three scores, a Bessel-corrected (divisor `n - 1`)
sample standard deviation that is `0` for two or fewer scores, and a final
clamp to `[0, 1]`.  Stated from the claim's words, to be compared with
`predictEscalation`. -/
noncomputable def escalationClaimed (scores : List ℚ) : ℝ :=
  let slope := slopeOLS scores
  let recentAvg := qmean (scores.drop (scores.length - 3))
  let volatility : ℝ :=
    if 2 < scores.length then Real.sqrt ((sampleVariance scores : ℚ) : ℝ) else 0
  max 0 (min ((4/10) * (recentAvg : ℝ) + (4/10) * max 0 (10 * (slope : ℝ)) +
    (2/10) * volatility) 1)

/-- The claim amended at its one flaw: the volatility is the population
standard deviation (`np.std`, divisor `n`), not the Bessel-corrected one;
everything else as the claim states it. -/
noncomputable def escalationPopulationFormula (scores : List ℚ) : ℝ :=
  max 0 (min ((4/10) * (qmean (scores.drop (scores.length - 3)) : ℝ) +
    (4/10) * max 0 (10 * (slopeOLS scores : ℝ)) +
    (2/10) * (if 2 < scores.length then Real.sqrt ((popVariance scores : ℚ) : ℝ) else 0)) 1)

/-- The response-pattern extraction as the claim describes it: one pair per
turn at index `i > 0` whose speaker is exactly "opponent", both texts
truncated to 50 characters, first five kept in order. -/
def claimedResponsePatterns (turns : List Turn) : List (String × String) :=
  (((turns.zip turns.tail).filter fun p => p.2.speaker == "opponent").map
    fun p => (p.1.text.take 50, p.2.text.take 50)).take 5

/-- A concrete oracle whose emotion pipeline returns an unnormalizable
shape; used to instantiate theorems at concrete inputs. -/
def mockOracle : Oracle :=
  { sentimentRaw := fun _ => ("POSITIVE", 9/10)
    rawEmotions := fun _ => RawEmotions.unknown
    features := fun _ => ⟨0, 0, [], 0, 1, 3⟩ }

/-- A concrete scored turn used to instantiate theorems. -/
def testTurn : Turn :=
  { speaker := "user"
    text := "hello there"
    sentiment := ⟨"POSITIVE", 9/10, 1⟩
    emotions := defaultEmotionResult
    aggression_score := 0
    passive_aggression_score := 0
    conflict_score := 0
    bias_tags := []
    linguistic_features := ⟨0, 1, [], 0, 1, 2⟩ }

/-! ## Helper lemmas -/

theorem sublist_if_cons {α : Type} (c : Prop) [Decidable c] (a : α) {l l' : List α}
    (h : l.Sublist l') : ((if c then [a] else []) ++ l).Sublist (a :: l') := by
  split
  · exact h.cons₂ a
  · exact h.cons a

theorem severityWeight_nonneg (s : String) : 0 ≤ severityWeight s := by
  unfold severityWeight
  split_ifs <;> norm_num

theorem biasSeverityTerm_nonneg (biases : List BiasTag) : 0 ≤ biasSeverityTerm biases := by
  unfold biasSeverityTerm
  split
  · exact le_refl 0
  · apply div_nonneg
    · apply List.sum_nonneg
      intro x hx
      obtain ⟨b, _, rfl⟩ := List.mem_map.mp hx
      exact severityWeight_nonneg b.severity
    · exact Nat.cast_nonneg _

theorem responsePatternsAux_eq (turns : List Turn) :
    responsePatternsAux turns =
      ((turns.zip turns.tail).filter fun p => p.2.speaker == "opponent").map
        fun p => (p.1.text.take 50, p.2.text.take 50) := by
  induction turns with
  | nil => rfl
  | cons a l ih =>
    cases l with
    | nil => rfl
    | cons b r =>
      simp only [responsePatternsAux, List.tail_cons, List.zip_cons_cons,
        List.filter_cons] at ih ⊢
      by_cases h : b.speaker = "opponent"
      · simp [h, ih]
      · simp [h, ih]

theorem escalation_lhs_eval :
    predictEscalation [1/2, 3/5, 2/5] =
      1/5 + (2/10) * Real.sqrt (((1:ℚ)/150 : ℚ) : ℝ) := by
  have hslope : slopeOLS [1/2, 3/5, 2/5] = -(1/20) := by
    norm_num [slopeOLS, qmean, List.enum, List.enumFrom]
  have hrec : qmean (([1/2, 3/5, 2/5] : List ℚ).drop
      (([1/2, 3/5, 2/5] : List ℚ).length - 3)) = 1/2 := by
    norm_num [qmean]
  have hpv : popVariance [1/2, 3/5, 2/5] = 1/150 := by norm_num [popVariance, qmean]
  have hle : Real.sqrt (((1:ℚ)/150 : ℚ) : ℝ) ≤ 1 := by
    rw [Real.sqrt_le_one]
    norm_num
  simp only [predictEscalation, hslope, hrec, hpv]
  rw [if_neg (by norm_num)]
  rw [if_pos (by norm_num)]
  rw [min_eq_left]
  · push_cast
    rw [show max (0:ℝ) (-(1/20) * 10) = 0 from by rw [max_eq_left] ; norm_num]
    ring_nf
  · push_cast
    rw [show max (0:ℝ) (-(1/20) * 10) = 0 from by rw [max_eq_left] ; norm_num]
    nlinarith [hle]

theorem escalation_rhs_eval :
    escalationClaimed [1/2, 3/5, 2/5] = 11/50 := by
  have hslope : slopeOLS [1/2, 3/5, 2/5] = -(1/20) := by
    norm_num [slopeOLS, qmean, List.enum, List.enumFrom]
  have hrec : qmean (([1/2, 3/5, 2/5] : List ℚ).drop
      (([1/2, 3/5, 2/5] : List ℚ).length - 3)) = 1/2 := by
    norm_num [qmean]
  have hsv : sampleVariance [1/2, 3/5, 2/5] = 1/100 := by
    norm_num [sampleVariance, qmean]
  have h10 : Real.sqrt ((((1:ℚ)/100 : ℚ)) : ℝ) = 1/10 := by
    rw [show ((((1:ℚ)/100 : ℚ)) : ℝ) = (1/10 : ℝ)^2 by norm_num]
    exact Real.sqrt_sq (by norm_num)
  simp only [escalationClaimed, hslope, hrec, hsv]
  rw [if_pos (by norm_num), h10]
  push_cast
  rw [show max (0:ℝ) (10 * -(1/20)) = 0 from by rw [max_eq_left] ; norm_num]
  norm_num [min_def, max_def]

/-! ## Claim C1: the per-turn conflict score formula and its bounds -/

/-- C1: for oracle outputs with aggression and passive aggression in
`[0, 1]` and polarity in `{-1, +1}`, the turn conflict score equals
`min(0.35·a + 0.25·p + 0.20·(1 - pol)/2 + 0.20·mean severity, 1)` and lies
in `[0, 1]`. -/
theorem conflict_score_formula_and_bounds (a p pol : ℚ) (biases : List BiasTag)
    (hpol : pol = -1 ∨ pol = 1) (ha0 : 0 ≤ a) (ha1 : a ≤ 1) (hp0 : 0 ≤ p) (hp1 : p ≤ 1) :
    calculateTurnConflictScore a p pol biases =
      min ((35/100) * a + (25/100) * p + (20/100) * ((1 - pol) / 2) +
        (20/100) * biasSeverityTerm biases) 1 ∧
    0 ≤ calculateTurnConflictScore a p pol biases ∧
    calculateTurnConflictScore a p pol biases ≤ 1 := by
  have hbias := biasSeverityTerm_nonneg biases
  have hneg : 0 ≤ (1 - pol) / 2 := by rcases hpol with h | h <;> rw [h] <;> norm_num
  refine ⟨rfl, ?_, ?_⟩
  · simp only [calculateTurnConflictScore]
    refine le_min ?_ (by norm_num)
    have t1 : 0 ≤ (35/100 : ℚ) * a := mul_nonneg (by norm_num) ha0
    have t2 : 0 ≤ (25/100 : ℚ) * p := mul_nonneg (by norm_num) hp0
    have t3 : 0 ≤ (20/100 : ℚ) * ((1 - pol) / 2) := mul_nonneg (by norm_num) hneg
    have t4 : 0 ≤ (20/100 : ℚ) * biasSeverityTerm biases := mul_nonneg (by norm_num) hbias
    linarith
  · exact min_le_right _ _

/-- C1 witness: the theorem instantiated at `a = p = 1/2`, negative
sentiment, and one medium bias tag. -/
theorem conflict_score_bounds_witness :
    calculateTurnConflictScore (1/2) (1/2) (-1) [overgeneralizationTag] =
      min ((35/100) * (1/2 : ℚ) + (25/100) * (1/2 : ℚ) + (20/100) * ((1 - (-1 : ℚ)) / 2) +
        (20/100) * biasSeverityTerm [overgeneralizationTag]) 1 ∧
    0 ≤ calculateTurnConflictScore (1/2) (1/2) (-1) [overgeneralizationTag] ∧
    calculateTurnConflictScore (1/2) (1/2) (-1) [overgeneralizationTag] ≤ 1 :=
  conflict_score_formula_and_bounds (1/2) (1/2) (-1) [overgeneralizationTag]
    (Or.inl rfl) (by norm_num) (by norm_num) (by norm_num) (by norm_num)

/-! ## Claim C2: the escalation probability formula -/

/-- C2 counterexample: on the scores `[0.5, 0.6, 0.4]` the code's
escalation (volatility `np.std`, divisor `n`) differs from the claim's
formula with a Bessel-corrected sample standard deviation (divisor
`n - 1`): the code yields `1/5 + √(1/150)/5`, the claim `11/50`. -/
theorem escalation_sample_std_counterexample :
    predictEscalation [1/2, 3/5, 2/5] ≠ escalationClaimed [1/2, 3/5, 2/5] := by
  rw [escalation_lhs_eval, escalation_rhs_eval]
  intro heq
  have hge : (0:ℝ) ≤ (((1:ℚ)/150 : ℚ) : ℝ) := by norm_num
  have hs : Real.sqrt (((1:ℚ)/150 : ℚ) : ℝ) ^ 2 = (((1:ℚ)/150 : ℚ) : ℝ) :=
    Real.sq_sqrt hge
  have hval : Real.sqrt (((1:ℚ)/150 : ℚ) : ℝ) = 1/10 := by linarith
  rw [hval] at hs
  push_cast at hs
  norm_num at hs

/-- C2 amended: for at least two conflict scores in `[0, 1]`, the
escalation probability equals
`clamp(0.4·recent_avg + 0.4·max(0, 10·slope) + 0.2·volatility, 0, 1)` with
the OLS slope, the mean of the last three scores, and the *population*
standard deviation (`np.std`, divisor `n`; `0` for two or fewer scores) as
volatility. -/
theorem escalation_formula_population_std (scores : List ℚ) (h2 : 2 ≤ scores.length)
    (hb : ∀ s ∈ scores, 0 ≤ s ∧ s ≤ 1) :
    predictEscalation scores = escalationPopulationFormula scores := by
  have hrec : (0:ℚ) ≤ qmean (scores.drop (scores.length - 3)) := by
    apply div_nonneg
    · apply List.sum_nonneg
      intro x hx
      exact (hb x (List.drop_subset _ _ hx)).1
    · exact Nat.cast_nonneg _
  have hvol : (0:ℝ) ≤
      (if 2 < scores.length then Real.sqrt ((popVariance scores : ℚ) : ℝ) else 0) := by
    split
    · exact Real.sqrt_nonneg _
    · exact le_refl 0
  have hmin : (0:ℝ) ≤ min ((4/10) * ((qmean (scores.drop (scores.length - 3)) : ℚ) : ℝ) +
      (4/10) * max 0 (10 * ((slopeOLS scores : ℚ) : ℝ)) +
      (2/10) * (if 2 < scores.length then Real.sqrt ((popVariance scores : ℚ) : ℝ) else 0)) 1 := by
    refine le_min ?_ (by norm_num)
    have t1 : (0:ℝ) ≤ (4/10) * ((qmean (scores.drop (scores.length - 3)) : ℚ) : ℝ) :=
      mul_nonneg (by norm_num) (by exact_mod_cast hrec)
    have t2 : (0:ℝ) ≤ (4/10) * max 0 (10 * ((slopeOLS scores : ℚ) : ℝ)) :=
      mul_nonneg (by norm_num) (le_max_left _ _)
    have t3 : (0:ℝ) ≤ (2/10) *
        (if 2 < scores.length then Real.sqrt ((popVariance scores : ℚ) : ℝ) else 0) :=
      mul_nonneg (by norm_num) hvol
    linarith
  simp only [predictEscalation, escalationPopulationFormula]
  rw [if_neg (by omega), mul_comm ((slopeOLS scores : ℚ) : ℝ) 10, max_eq_right hmin]

/-- C2 witness: the amended theorem instantiated at `[0.5, 0.6, 0.4]`. -/
theorem escalation_formula_population_witness :
    predictEscalation [1/2, 3/5, 2/5] = escalationPopulationFormula [1/2, 3/5, 2/5] :=
  escalation_formula_population_std [1/2, 3/5, 2/5] (by norm_num)
    (by intro s hs; fin_cases hs <;> norm_num)

/-! ## Claim C3: biases detected in the benchmark sentence -/

/-- C3 counterexample: the text "You always ruin everything and it's your
fault" yields only two bias types — no catastrophizing tag, because the
pattern is `\bruined\b` and the text has "ruin". -/
theorem bias_example_missing_catastrophizing :
    (detectCognitiveBiases "You always ruin everything and it's your fault").map
      (fun b => b.type) = ["overgeneralization", "personalization"] := by decide

/-- C3 amended: the text yields exactly the overgeneralization tag
(severity medium) and the personalization tag (severity high); the
catastrophizing category does not fire. -/
theorem bias_example_exact_tags :
    detectCognitiveBiases "You always ruin everything and it's your fault" =
      [overgeneralizationTag, personalizationTag] := by decide

/-! ## Claim C4: passive-aggression score of "Sure, whatever. Fine." -/

/-- C4 counterexample: with a concrete oracle the text "Sure, whatever.
Fine." does not score `1.0` — the `\bsure\b\.?$` pattern requires "sure" at
the end of the string and does not match, so the pattern sum is `0.7`. -/
theorem pa_example_not_one :
    detectPassiveAggression mockOracle "Sure, whatever. Fine." ≠ 1 := by
  norm_num +decide [detectPassiveAggression, patternScore, mockOracle, analyzeEmotions,
    normalizeRaw, defaultEmotionResult, lookupD]

/-- C4 amended: for every emotion-oracle output, the text "Sure, whatever.
Fine." accumulates pattern weights `0.4` ("whatever") and `0.3` ("fine" at
the end) only, and the returned score is `0.7`, or `0.9` when the emotion
bonus (aggression < 0.3 and disgust > 0.3) applies — never `1.0`. -/
theorem pa_example_value (o : Oracle) :
    detectPassiveAggression o "Sure, whatever. Fine." =
      (if (analyzeEmotions (o.rawEmotions "Sure, whatever. Fine.")).aggression_score < 3/10 ∧
          lookupD (analyzeEmotions (o.rawEmotions "Sure, whatever. Fine.")).emotions
            "disgust" 0 > 3/10
        then 9/10 else 7/10) := by
  have hps : patternScore (toLowerStr "Sure, whatever. Fine.") = 7/10 := by
    norm_num +decide [patternScore]
  have hsar : (containsSub "Sure, whatever. Fine." "..." ||
      containsSub "Sure, whatever. Fine." "!!") = false := by decide
  simp only [detectPassiveAggression, hps, hsar, Bool.false_eq_true, if_false]
  split <;> norm_num [min_def]

/-! ## Claim C5: the emotion adapter on unnormalizable shapes -/

/-- C5 counterexample: on an unnormalizable oracle shape the adapter does
not fail — it substitutes exactly the best-effort default the claim
forbids: empty emotion map, aggression `0.0`, dominant emotion
"neutral". -/
theorem emotion_adapter_returns_default :
    analyzeEmotions RawEmotions.unknown =
      { emotions := [], aggression_score := 0, dominant_emotion := "neutral" } := rfl

/-- C5 amended: for every oracle emotion output whose shape normalizes to
no entries, `analyze_emotions` returns the neutral default value instead of
raising a DataFormatError. -/
theorem emotion_adapter_default_on_unnormalizable (raw : RawEmotions)
    (h : normalizeRaw raw = []) : analyzeEmotions raw = defaultEmotionResult := by
  simp [analyzeEmotions, h]

/-- C5 witness: the amended theorem instantiated at the unknown shape. -/
theorem emotion_adapter_default_witness :
    normalizeRaw RawEmotions.unknown = [] ∧
      analyzeEmotions RawEmotions.unknown = defaultEmotionResult :=
  ⟨rfl, emotion_adapter_default_on_unnormalizable RawEmotions.unknown rfl⟩

/-! ## Claim C6: the empty conversation -/

/-- C6: analyzing the empty turn sequence returns the defined neutral
result — all-zero scores, trend "stable", no biases and no
recommendations — rather than raising. -/
theorem analyze_conversation_empty_neutral (o : Oracle) :
    (analyzeConversation o []).overall_conflict_score = 0 ∧
    (analyzeConversation o []).escalation_probability = 0 ∧
    (analyzeConversation o []).passive_aggression_index = 0 ∧
    (analyzeConversation o []).trend = "stable" ∧
    (analyzeConversation o []).cognitive_biases = [] ∧
    (analyzeConversation o []).recommendations = [] :=
  ⟨rfl, rfl, rfl, rfl, rfl, rfl⟩

/-! ## Claim C7: the conflict-score delta of a simulation -/

/-- C7: `simulate_response` reports as `conflict_score_change` the overall
conflict score of a fresh analysis of the history extended with the draft
turn and the simulated response turn, minus a fresh independent re-analysis
of the original history (minus `0` when the history is empty). -/
theorem conflict_score_change_fresh_reanalysis (rng : Rng) (o : Oracle) (draft : String)
    (m : OpponentModel) (history : List Turn) :
    (simulateResponse rng o draft m history).conflict_score_change =
      (analyzeConversation o (history ++
        [analyzeTurn o draft "user",
          analyzeTurn o (generateResponseText rng (analyzeTurn o draft "user") m).1
            "opponent"])).overall_conflict_score -
      (if history.isEmpty then 0
        else (analyzeConversation o history).overall_conflict_score) := rfl

/-! ## Claim C8: determinism of the simulator under a fixed seed -/

/-- C8: with the randomness source modelled as an explicit seeded generator
(the only randomness is the template/trigger selection), two runs of
`simulate_response` from equal seeds with the same oracle, draft, opponent
model and history produce identical simulated response text and identical
predicted escalation. -/
theorem simulate_response_deterministic (s₁ s₂ : Rng) (o : Oracle) (draft : String)
    (m : OpponentModel) (history : List Turn) (h : s₁ = s₂) :
    (simulateResponse s₁ o draft m history).simulated_response =
      (simulateResponse s₂ o draft m history).simulated_response ∧
    (simulateResponse s₁ o draft m history).predicted_escalation =
      (simulateResponse s₂ o draft m history).predicted_escalation := by
  subst h
  exact ⟨rfl, rfl⟩

/-- C8 witness: the determinism theorem instantiated at a concrete seed,
oracle, draft, model and history. -/
theorem simulate_response_deterministic_witness :
    (⟨2024⟩ : Rng) = (⟨2024⟩ : Rng) ∧
    ((simulateResponse ⟨2024⟩ mockOracle "You never listen"
        defaultOpponentModel []).simulated_response =
      (simulateResponse ⟨2024⟩ mockOracle "You never listen"
        defaultOpponentModel []).simulated_response ∧
    (simulateResponse ⟨2024⟩ mockOracle "You never listen"
        defaultOpponentModel []).predicted_escalation =
      (simulateResponse ⟨2024⟩ mockOracle "You never listen"
        defaultOpponentModel []).predicted_escalation) :=
  ⟨rfl, simulate_response_deterministic ⟨2024⟩ ⟨2024⟩ mockOracle "You never listen"
    defaultOpponentModel [] rfl⟩

/-! ## Claim C9: at most one tag per category, in fixed order -/

/-- C9: for every text the detected bias tags form a subsequence of the
canonical five-tag list (hence at most one tag per category, at most five
tags, and always in the fixed order overgeneralization, mind_reading,
catastrophizing, personalization, gaslighting). -/
theorem bias_tags_sublist_canonical (text : String) :
    (detectCognitiveBiases text).Sublist canonicalBiasTags ∧
    (detectCognitiveBiases text).length ≤ 5 := by
  have h : (detectCognitiveBiases text).Sublist canonicalBiasTags := by
    simp only [detectCognitiveBiases, List.append_assoc]
    apply sublist_if_cons
    apply sublist_if_cons
    apply sublist_if_cons
    apply sublist_if_cons
    split
    · exact List.Sublist.refl _
    · exact List.nil_sublist _
  exact ⟨h, le_trans h.length_le (by norm_num [canonicalBiasTags])⟩

/-! ## Claim C10: extracted response patterns -/

/-- C10: for every non-empty history, the opponent model's response
patterns are exactly one (previous text, current text) pair — both
truncated to 50 characters — per turn after index 0 whose speaker is
exactly "opponent", kept to the first five in order; in particular they are
empty when no turn after index 0 has speaker "opponent". -/
theorem response_patterns_characterization (o : Oracle) (turns : List Turn)
    (hne : turns ≠ []) :
    (buildOpponentModel o turns).response_patterns = claimedResponsePatterns turns ∧
    ((∀ t ∈ turns.tail, t.speaker ≠ "opponent") →
      (buildOpponentModel o turns).response_patterns = []) := by
  obtain ⟨t, ts, rfl⟩ := List.exists_cons_of_ne_nil hne
  have hbuild : (buildOpponentModel o (t :: ts)).response_patterns =
      extractResponsePatterns (t :: ts) := rfl
  constructor
  · rw [hbuild]
    unfold extractResponsePatterns claimedResponsePatterns
    rw [responsePatternsAux_eq]
  · intro hno
    rw [hbuild]
    unfold extractResponsePatterns
    rw [responsePatternsAux_eq]
    have hfil : (((t :: ts).zip (t :: ts).tail).filter
        fun p => p.2.speaker == "opponent") = [] := by
      rw [List.filter_eq_nil_iff]
      intro p hp
      obtain ⟨p1, p2⟩ := p
      have hmem := (List.of_mem_zip hp).2
      simp only [List.tail_cons] at hmem
      simp only [beq_iff_eq]
      exact hno p2 hmem
    rw [hfil]
    rfl

/-- C10 witness: the theorem instantiated at a two-turn history whose
speakers are both "user". -/
theorem response_patterns_witness :
    (buildOpponentModel mockOracle [testTurn, testTurn]).response_patterns =
      claimedResponsePatterns [testTurn, testTurn] ∧
    ((∀ t ∈ ([testTurn, testTurn] : List Turn).tail, t.speaker ≠ "opponent") →
      (buildOpponentModel mockOracle [testTurn, testTurn]).response_patterns = []) :=
  response_patterns_characterization mockOracle [testTurn, testTurn] (by simp)

end CIP
